import Mathlib

/-!
Shallow embedding of the Istio Pilot bootstrap/lifecycle core:
the proxy hot-restart agent (`pkg/envoy/agent.go`) and the discovery
`Server` bootstrap (`pilot/pkg/bootstrap`, `src/unnamed/part_000`).

Part 1: the proxy agent.

In Go the agent holds `currentEpoch int` (initialised to -1),
`currentConfig interface{}` (initially nil), and
`activeEpochs map[int]chan error`.  `Restart(config)` compares the new
config to the current one with `reflect.DeepEqual`; when equal it
returns immediately, otherwise it waits for the current epoch to go
live (`waitUntilLive`), increments `currentEpoch`, records the config,
adds a buffered abort channel to `activeEpochs`, and spawns a runner
goroutine for the new epoch.

The embedding uses an abstract config type `C` with decidable equality
standing for `reflect.DeepEqual` on the (non-nil) config values the
program uses.  Go's `DrainConfig{}` sentinel is a distinct type, deep
equal only to itself, hence the sum `ProxyConfig C`.  The nil initial
config is `Option.none`; `reflect.DeepEqual(nil, c)` is false for every
non-nil `c`, which the `Option` encoding captures.
-/

namespace Envoy

/-- A config value passed to `Restart`: either a user config or the
`DrainConfig{}` drain sentinel. -/
inductive ProxyConfig (C : Type) where
  | user (c : C)
  | drain
deriving DecidableEq, Repr

/-- State of the Go `agent` struct: the fields read and written by
`Restart`, `terminate` and `abortAll`, plus a trace of spawned runners
(the `go a.runWait(config, epoch, abortCh)` calls, in order). -/
structure AgentState (C : Type) where
  currentEpoch : Int
  currentConfig : Option (ProxyConfig C)
  activeEpochs : List Int
  spawned : List (Int × ProxyConfig C)
deriving Repr

/-- `NewAgent`: `currentEpoch` starts at `-1`, no config, no active
epochs (agent.go lines 73-82). -/
def NewAgent (C : Type) : AgentState C :=
  { currentEpoch := -1
    currentConfig := none
    activeEpochs := []
    spawned := [] }

/-- `waitUntilLive` (agent.go lines 150-186), timing projection.
`isLive k` is the value the `a.proxy.IsLive()` probe would return at
the `k`-th check: `k = 0` is the initial check done before the loop,
`k ≥ 1` the check on the `k`-th 500 ms ticker tick.  The 20 s timer
allows 40 ticker periods.  The result is the number of 500 ms
intervals waited before the function returns (40 on timeout). -/
def pollLive (isLive : Nat → Bool) : Nat → Nat → Nat
  | 0, k => k - 1
  | fuel + 1, k => if isLive k then k else pollLive isLive fuel (k + 1)

/-- Number of 500 ms intervals `waitUntilLive` waits: 0 when there is
no active epoch or the proxy is live at the initial check; otherwise
it polls every 500 ms and gives up when the 20 s timer fires
(40 = 20 s / 500 ms intervals). -/
def waitUntilLive (active : List Int) (isLive : Nat → Bool) : Nat :=
  if active.isEmpty then 0
  else if isLive 0 then 0
  else pollLive isLive 40 1

/-- `Restart` (agent.go lines 124-147): deep-equal config is a no-op;
otherwise wait for liveness, increment the epoch, record the config,
register the abort channel, spawn the runner.  Returns the new state
together with the number of 500 ms liveness-poll intervals spent. -/
def Restart {C : Type} [DecidableEq C] (a : AgentState C)
    (config : ProxyConfig C) (isLive : Nat → Bool) : AgentState C × Nat :=
  if a.currentConfig = some config then
    (a, 0)
  else
    let w := waitUntilLive a.activeEpochs isLive
    let e := a.currentEpoch + 1
    ({ currentEpoch := e
       currentConfig := some config
       activeEpochs := a.activeEpochs ++ [e]
       spawned := a.spawned ++ [(e, config)] }, w)

/-- Run a sequence of `Restart` calls from a given state (each with an
always-live proxy; the state transition does not depend on liveness). -/
def runRestarts {C : Type} [DecidableEq C] (a : AgentState C) :
    List (ProxyConfig C) → AgentState C
  | [] => a
  | c :: cs => runRestarts (Restart a c (fun _ => true)).1 cs

end Envoy

namespace Envoy

/-- The spawned-runner epochs of a state reachable by `n` spawns from
`NewAgent` are exactly `0, 1, ..., n-1`. -/
def epochList (n : Nat) : List Int :=
  (List.range n).map Int.ofNat

theorem Restart_state_indep_isLive {C : Type} [DecidableEq C]
    (a : AgentState C) (c : ProxyConfig C) (f g : Nat → Bool) :
    (Restart a c f).1 = (Restart a c g).1 := by
  unfold Restart
  by_cases h : a.currentConfig = some c <;> simp [h]

/-- Invariant relating the epoch counter to the spawn trace. -/
def goodAgent {C : Type} (a : AgentState C) : Prop :=
  a.currentEpoch = Int.ofNat a.spawned.length - 1 ∧
  a.spawned.map Prod.fst = epochList a.spawned.length

theorem goodAgent_new (C : Type) : goodAgent (NewAgent C) := by
  constructor <;> simp [NewAgent, epochList]

theorem epochList_snoc (n : Nat) :
    epochList (n + 1) = epochList n ++ [Int.ofNat n] := by
  simp [epochList, List.range_succ]

theorem goodAgent_restart {C : Type} [DecidableEq C]
    (a : AgentState C) (c : ProxyConfig C) (isLive : Nat → Bool)
    (h : goodAgent a) : goodAgent (Restart a c isLive).1 := by
  obtain ⟨h1, h2⟩ := h
  unfold Restart
  by_cases hc : a.currentConfig = some c
  · simpa [hc] using ⟨h1, h2⟩
  · simp only [hc, if_false]
    have hofNat : Int.ofNat a.spawned.length - 1 + 1 = Int.ofNat a.spawned.length := by
      ring
    refine ⟨?_, ?_⟩
    · simp only [List.length_append, List.length_singleton]
      rw [h1, hofNat]
      simp only [Int.ofNat_eq_coe]
      push_cast
      omega
    · simp only [List.map_append, List.map_cons, List.map_nil, List.length_append,
        List.length_singleton, epochList_snoc, h2]
      rw [h1, hofNat]

theorem goodAgent_runRestarts {C : Type} [DecidableEq C]
    (cs : List (ProxyConfig C)) (a : AgentState C) (h : goodAgent a) :
    goodAgent (runRestarts a cs) := by
  induction cs generalizing a with
  | nil => simpa [runRestarts] using h
  | cons c cs ih =>
    exact ih _ (goodAgent_restart a c _ h)

/-- C1: the epoch counter of a fresh agent is -1, and over any sequence of
Restart calls the runners spawned from a fresh agent carry epoch numbers
exactly 0, 1, 2, ..., n-1 in order — no gaps, no reuse — with the counter
always one behind the next epoch to assign. -/
theorem claim_C1 {C : Type} [DecidableEq C] (cs : List (ProxyConfig C)) :
    (NewAgent C).currentEpoch = -1 ∧
    (runRestarts (NewAgent C) cs).spawned.map Prod.fst =
      (List.range (runRestarts (NewAgent C) cs).spawned.length).map Int.ofNat ∧
    (runRestarts (NewAgent C) cs).currentEpoch =
      Int.ofNat (runRestarts (NewAgent C) cs).spawned.length - 1 := by
  have h := goodAgent_runRestarts cs (NewAgent C) (goodAgent_new C)
  exact ⟨rfl, by simpa [epochList] using h.2, h.1⟩

/-- C2: Restart with a config deep-equal to the current config is a no-op
(state unchanged, no wait, no runner spawned); from a fresh agent,
Restart(c) followed by Restart(c) spawns exactly one runner total. -/
theorem claim_C2 {C : Type} [DecidableEq C] :
    (∀ (a : AgentState C) (c : ProxyConfig C) (isLive : Nat → Bool),
      a.currentConfig = some c → Restart a c isLive = (a, 0)) ∧
    (∀ (c : ProxyConfig C) (f g : Nat → Bool),
      (Restart (Restart (NewAgent C) c f).1 c g).1.spawned.length = 1) := by
  constructor
  · intro a c isLive h
    simp [Restart, h]
  · intro c f g
    simp [Restart, NewAgent]

/-- Witness for C2 at a concrete agent state and config. -/
theorem claim_C2_witness :
    Restart
      { currentEpoch := 0
        currentConfig := some (ProxyConfig.user 5)
        activeEpochs := [0]
        spawned := [(0, ProxyConfig.user 5)] }
      (ProxyConfig.user (5 : Nat)) (fun _ => true) =
      ({ currentEpoch := 0
         currentConfig := some (ProxyConfig.user 5)
         activeEpochs := [0]
         spawned := [(0, ProxyConfig.user 5)] }, 0) ∧
    (Restart (Restart (NewAgent Nat) (ProxyConfig.user 5) (fun _ => true)).1
      (ProxyConfig.user 5) (fun _ => true)).1.spawned.length = 1 :=
  ⟨(@claim_C2 Nat _).1 _ _ _ rfl,
   (@claim_C2 Nat _).2 (ProxyConfig.user 5) (fun _ => true) (fun _ => true)⟩

theorem pollLive_all_false (isLive : Nat → Bool) (fuel k : Nat)
    (h : ∀ i, k ≤ i → i < k + fuel → isLive i = false) :
    pollLive isLive fuel k = k + fuel - 1 := by
  induction fuel generalizing k with
  | zero => simp [pollLive]
  | succ n ih =>
    have hk : isLive k = false := h k (Nat.le_refl _) (by omega)
    simp only [pollLive, hk, Bool.false_eq_true, if_false]
    have := ih (k + 1) (fun i h1 h2 => h i (by omega) (by omega))
    omega

theorem pollLive_first_true (isLive : Nat → Bool) (fuel k j : Nat)
    (hkj : k ≤ j) (hjf : j < k + fuel)
    (hbefore : ∀ i, k ≤ i → i < j → isLive i = false)
    (hj : isLive j = true) :
    pollLive isLive fuel k = j := by
  induction fuel generalizing k with
  | zero => omega
  | succ n ih =>
    by_cases hk : k = j
    · subst hk
      simp [pollLive, hj]
    · have hkf : isLive k = false := hbefore k (Nat.le_refl _) (by omega)
      simp only [pollLive, hkf, Bool.false_eq_true, if_false]
      exact ih (k + 1) (by omega) (by omega)
        (fun i h1 h2 => hbefore i (by omega) h2)

/-- C3: before spawning with an unequal config, Restart waits exactly
`waitUntilLive` 500 ms poll intervals: zero when no epoch is active or the
proxy is live at the initial check; the index of the first live poll
otherwise; and 40 intervals (the 20 s timeout, after which it proceeds
anyway and still spawns) when the proxy never reports live. -/
theorem claim_C3 {C : Type} [DecidableEq C] :
    (∀ isLive : Nat → Bool, waitUntilLive [] isLive = 0) ∧
    (∀ (a : AgentState C) (c : ProxyConfig C) (isLive : Nat → Bool),
      a.currentConfig = some c → (Restart a c isLive).2 = 0) ∧
    (∀ (a : AgentState C) (c : ProxyConfig C) (isLive : Nat → Bool),
      a.currentConfig ≠ some c →
      (Restart a c isLive).2 = waitUntilLive a.activeEpochs isLive ∧
      (Restart a c isLive).1.spawned.length = a.spawned.length + 1) ∧
    (∀ (active : List Int) (isLive : Nat → Bool),
      isLive 0 = true → waitUntilLive active isLive = 0) ∧
    (∀ (active : List Int) (isLive : Nat → Bool) (j : Nat),
      active ≠ [] → 1 ≤ j → j ≤ 40 →
      (∀ k, k < j → isLive k = false) → isLive j = true →
      waitUntilLive active isLive = j) ∧
    (∀ (active : List Int) (isLive : Nat → Bool),
      active ≠ [] → (∀ k, k ≤ 40 → isLive k = false) →
      waitUntilLive active isLive = 40) := by
  refine ⟨?_, ?_, ?_, ?_, ?_, ?_⟩
  · intro isLive
    simp [waitUntilLive]
  · intro a c isLive h
    simp [Restart, h]
  · intro a c isLive h
    simp [Restart, h]
  · intro active isLive h0
    unfold waitUntilLive
    by_cases he : active.isEmpty <;> simp [he, h0]
  · intro active isLive j hne h1 h40 hbefore hj
    have he : active.isEmpty = false := by
      cases active <;> simp_all
    have h0 : isLive 0 = false := hbefore 0 (by omega)
    unfold waitUntilLive
    simp only [he, Bool.false_eq_true, if_false, h0]
    exact pollLive_first_true isLive 40 1 j h1 (by omega)
      (fun i hi1 hi2 => hbefore i hi2) hj
  · intro active isLive hne hfalse
    have he : active.isEmpty = false := by
      cases active <;> simp_all
    have h0 : isLive 0 = false := hfalse 0 (by omega)
    unfold waitUntilLive
    simp only [he, Bool.false_eq_true, if_false, h0]
    have := pollLive_all_false isLive 40 1
      (fun i h1 h2 => hfalse i (by omega))
    omega

/-- Witness for C3 at a concrete state and liveness trace (live at the
third 500 ms poll). -/
theorem claim_C3_witness :
    waitUntilLive ([] : List Int) (fun _ => false) = 0 ∧
    waitUntilLive [0] (fun k => decide (3 ≤ k)) = 3 := by
  refine ⟨(@claim_C3 Nat _).1 _, ?_⟩
  exact (@claim_C3 Nat _).2.2.2.2.1 [0] _ 3 (by simp) (by omega) (by omega)
    (by intro k hk; simp; omega) (by simp)

end Envoy

namespace Envoy

/-- Observable events of `agent.terminate` (agent.go lines 223-230) and
`agent.abortAll` (lines 241-249), in program order. -/
inductive AgentEvent (C : Type) where
  | restartCall (c : ProxyConfig C)
  | sleep (d : Nat)
  | abortSend (epoch : Int)
deriving DecidableEq, Repr

/-- `abortAll`: send `errAbort` to the abort channel of every epoch in
`activeEpochs`, once per map entry. -/
def abortAll {C : Type} (a : AgentState C) : List (AgentEvent C) :=
  a.activeEpochs.map AgentEvent.abortSend

/-- `terminate`: `Restart(DrainConfig{})`, then sleep
`terminationDrainDuration`, then `abortAll` (agent.go lines 223-230). -/
def terminate {C : Type} [DecidableEq C] (a : AgentState C)
    (terminationDrainDuration : Nat) (isLive : Nat → Bool) :
    AgentState C × List (AgentEvent C) :=
  let r := Restart a ProxyConfig.drain isLive
  (r.1, AgentEvent.restartCall ProxyConfig.drain ::
        AgentEvent.sleep terminationDrainDuration :: abortAll r.1)

/-- Active epochs of a reachable agent state are distinct and bounded by
the epoch counter. -/
def soundEpochs {C : Type} (a : AgentState C) : Prop :=
  a.activeEpochs.Nodup ∧ ∀ e ∈ a.activeEpochs, e ≤ a.currentEpoch

theorem soundEpochs_new (C : Type) : soundEpochs (NewAgent C) := by
  constructor <;> simp [NewAgent]

theorem soundEpochs_restart {C : Type} [DecidableEq C]
    (a : AgentState C) (c : ProxyConfig C) (isLive : Nat → Bool)
    (h : soundEpochs a) : soundEpochs (Restart a c isLive).1 := by
  obtain ⟨h1, h2⟩ := h
  unfold Restart
  by_cases hc : a.currentConfig = some c
  · simpa [hc] using ⟨h1, h2⟩
  · simp only [hc, if_false]
    constructor
    · rw [List.nodup_append]
      refine ⟨h1, List.nodup_singleton _, ?_⟩
      intro x hx hy
      simp only [List.mem_singleton] at hy
      subst hy
      have := h2 _ hx
      omega
    · intro e he
      simp only [List.mem_append, List.mem_singleton] at he
      show e ≤ a.currentEpoch + 1
      rcases he with he | he
      · have := h2 e he
        omega
      · omega

theorem soundEpochs_runRestarts {C : Type} [DecidableEq C]
    (cs : List (ProxyConfig C)) (a : AgentState C) (h : soundEpochs a) :
    soundEpochs (runRestarts a cs) := by
  induction cs generalizing a with
  | nil => simpa [runRestarts] using h
  | cons c cs ih => exact ih _ (soundEpochs_restart a c _ h)

/-- C4: from any reachable agent state, `terminate` emits, in order, the
`Restart(DrainConfig{})` call, the `terminationDrainDuration` sleep, and
then one `errAbort` send to the abort channel of each epoch in the active
set — exactly once per active epoch, none for any other epoch. -/
theorem claim_C4 {C : Type} [DecidableEq C] (cs : List (ProxyConfig C))
    (d : Nat) (isLive : Nat → Bool) (a : AgentState C)
    (ha : a = runRestarts (NewAgent C) cs) :
    (terminate a d isLive).2 =
      AgentEvent.restartCall ProxyConfig.drain :: AgentEvent.sleep d ::
        (terminate a d isLive).1.activeEpochs.map AgentEvent.abortSend ∧
    ∀ e : Int,
      ((terminate a d isLive).2.count (AgentEvent.abortSend e)) =
        if e ∈ (terminate a d isLive).1.activeEpochs then 1 else 0 := by
  have hs : soundEpochs a := ha ▸ soundEpochs_runRestarts cs _ (soundEpochs_new C)
  have hs' : soundEpochs (Restart a ProxyConfig.drain isLive).1 :=
    soundEpochs_restart a _ _ hs
  constructor
  · rfl
  · intro e
    have hcount : (terminate a d isLive).2.count (AgentEvent.abortSend e) =
        ((Restart a ProxyConfig.drain isLive).1.activeEpochs.map
          AgentEvent.abortSend).count (AgentEvent.abortSend e : AgentEvent C) := by
      simp only [terminate, abortAll]
      rw [List.count_cons, List.count_cons]
      simp
    have hact : (terminate a d isLive).1.activeEpochs =
        (Restart a ProxyConfig.drain isLive).1.activeEpochs := rfl
    rw [hcount, hact,
      List.count_map_of_injective _ AgentEvent.abortSend
        (fun x y h => by simpa using h) e]
    by_cases hmem : e ∈ (Restart a ProxyConfig.drain isLive).1.activeEpochs
    · rw [if_pos hmem]
      exact List.count_eq_one_of_mem hs'.1 hmem
    · rw [if_neg hmem]
      exact List.count_eq_zero_of_not_mem hmem

/-- Witness for C4: a reachable state with one active epoch; terminating
sends the abort sentinel to epoch 0 exactly once. -/
theorem claim_C4_witness :
    ((terminate (runRestarts (NewAgent Nat) [ProxyConfig.user 1]) 7
        (fun _ => true)).2.count (AgentEvent.abortSend 0 : AgentEvent Nat)) = 1 := by
  have h := (claim_C4 [ProxyConfig.user 1] 7 (fun _ => true) _ rfl).2 0
  rw [h]
  rfl

end Envoy

/-!
Part 2: the Pilot bootstrap `Server` (src/unnamed/part_000, package
`bootstrap`).

`Server.Start` walks the deferred `startFuncs` queue in registration
order and aborts on the first error (lines 308-317).  Each start action
is represented by its outcome: `none` for a nil return, `some e` for an
error `e`.
-/

namespace Bootstrap

/-- `Server.Start` (part_000 lines 308-317): run each start action in
order; on the first error stop and return it.  The second component
counts how many actions were invoked. -/
def Start {E : Type} : List (Option E) → Option E × Nat
  | [] => (none, 0)
  | some e :: _ => (some e, 1)
  | none :: rest =>
    let r := Start rest
    (r.1, r.2 + 1)

/-- C5: Start invokes the registered actions in registration order: when
every action returns nil it invokes all of them and returns nil; when some
action errors, it returns that error having invoked exactly the actions up
to and including it, so no later action runs. -/
theorem claim_C5 {E : Type} :
    (∀ acts : List (Option E), (∀ x ∈ acts, x = none) →
      Start acts = (none, acts.length)) ∧
    (∀ (pre post : List (Option E)) (e : E), (∀ x ∈ pre, x = none) →
      Start (pre ++ some e :: post) = (some e, pre.length + 1)) := by
  constructor
  · intro acts h
    induction acts with
    | nil => rfl
    | cons a rest ih =>
      have ha : a = none := h a (List.mem_cons_self a rest)
      subst ha
      have := ih (fun x hx => h x (List.mem_cons_of_mem _ hx))
      simp [Start, this]
  · intro pre post e h
    induction pre with
    | nil => rfl
    | cons a rest ih =>
      have ha : a = none := h a (List.mem_cons_self a rest)
      subst ha
      have := ih (fun x hx => h x (List.mem_cons_of_mem _ hx))
      simp [Start, this]

/-- Witness for C5: two clean actions then a failing one then another. -/
theorem claim_C5_witness :
    Start ([none, none] : List (Option String)) = (none, 2) ∧
    Start [none, none, some "boom", none] = (some "boom", 3) := by
  constructor
  · exact (@claim_C5 String).1 [none, none] (by intro x hx; simpa using hx)
  · exact (@claim_C5 String).2 [none, none] [none] "boom"
      (by intro x hx; simpa using hx)

/-!
`Server.addFileWatcher` (part_000 lines 1176-1193): one goroutine per
watched file holds a local `timerC`; each raw event arms a 100 ms timer
only when none is pending (`if timerC == nil`); when the timer fires,
`timerC` is reset to nil and the callback runs once.

The embedding processes the file's raw event times (an increasing list
of instants, in ms) against the pending-timer state and returns the
instants at which the callback fires.  When the pending timer's deadline
is not after the next event, the timer fires first: the callback runs,
`timerC` becomes nil, and the event then arms a fresh timer.
-/

/-- Debounce loop of `addFileWatcher` as written: an event arms the
100 ms timer only when no timer is pending. -/
def debounceRun : List Nat → Option Nat → List Nat
  | [], some d => [d]
  | [], none => []
  | t :: ts, none => debounceRun ts (some (t + 100))
  | t :: ts, some d =>
    if d ≤ t then d :: debounceRun ts (some (t + 100))
    else debounceRun ts (some d)

/-- Modelled from the spec: the claim's debounce, in which each raw event
"arms or re-arms" the 100 ms timer, i.e. an event arriving while a timer
is pending pushes the deadline back to event time + 100 ms.  This
definition follows the claim's words, for comparison with `debounceRun`,
which follows the source. -/
def debounceRearm : List Nat → Option Nat → List Nat
  | [], some d => [d]
  | [], none => []
  | t :: ts, none => debounceRearm ts (some (t + 100))
  | t :: ts, some d =>
    if d ≤ t then d :: debounceRearm ts (some (t + 100))
    else debounceRearm ts (some (t + 100))

/-- Events on a path, drawn from a multi-path raw event trace: each
watched file has its own goroutine and timer, so a path's callbacks are
computed from that path's events alone. -/
def debounceMulti (events : List (String × Nat)) (p : String) : List Nat :=
  debounceRun ((events.filter (fun e => e.1 = p)).map Prod.snd) none

theorem debounceRun_pending (ts : List Nat) (d : Nat)
    (h : ∀ u ∈ ts, u < d) : debounceRun ts (some d) = [d] := by
  induction ts with
  | nil => rfl
  | cons t ts ih =>
    have ht : t < d := h t (List.mem_cons_self t ts)
    have : ¬ d ≤ t := by omega
    simp only [debounceRun, this, if_false]
    exact ih (fun u hu => h u (List.mem_cons_of_mem _ hu))

/-- C6 counterexample: the claim's re-arming debounce and the code's
arm-once debounce disagree on the raw event trace at 0 ms, 95 ms and
190 ms (consecutive gaps below 100 ms, hence a single burst under the
claim's rolling window): the code fires the callback twice, at 100 ms
and at 290 ms, while the claimed re-arm semantics fires it once, at
290 ms. -/
theorem claim_C6_counterexample :
    debounceRun [0, 95, 190] none = [100, 290] ∧
    debounceRearm [0, 95, 190] none = [290] ∧
    (debounceRun [0, 95, 190] none).length = 2 ∧
    (debounceRearm [0, 95, 190] none).length = 1 := by
  refine ⟨rfl, rfl, rfl, rfl⟩

/-- C6 (amended): a raw event arms the 100 ms debounce timer only when no
timer is pending; the timer firing invokes the callback exactly once, so
any burst of N >= 1 events on one path that all occur within 100 ms of
the first causes exactly one callback invocation, and events on a
different path do not affect a path's callbacks. -/
theorem claim_C6 :
    (∀ (t : Nat) (ts : List Nat), (∀ u ∈ ts, u < t + 100) →
      debounceRun (t :: ts) none = [t + 100]) ∧
    (∀ (evs : List (String × Nat)) (p q : String) (u : Nat), p ≠ q →
      debounceMulti (evs ++ [(q, u)]) p = debounceMulti evs p) := by
  constructor
  · intro t ts h
    exact debounceRun_pending ts (t + 100) h
  · intro evs p q u hpq
    unfold debounceMulti
    rw [List.filter_append]
    have : List.filter (fun e => decide (e.1 = p)) [(q, u)] = [] := by
      simp [List.filter, hpq.symm]
    rw [this, List.append_nil]

/-- Witness for C6 (amended): three events within 100 ms of the first
collapse to one callback at 100 ms; an event on another path leaves a
path's callbacks unchanged. -/
theorem claim_C6_witness :
    debounceRun [0, 40, 95] none = [0 + 100] ∧
    debounceMulti [("a", 0)] "a" = debounceMulti ([("a", 0)] ++ [("b", 7)]) "a" :=
  ⟨claim_C6.1 0 [40, 95] (by decide),
   (claim_C6.2 [("a", 0)] "a" "b" 7 (by decide)).symm⟩

end Bootstrap

namespace Bootstrap

/-!
Mesh hot reload (`Server.initMesh`, part_000 lines 406-433, and
`Server.initMeshNetworks`, lines 479-503).

The file-watch callback re-reads the config file; on a read error it
logs and returns, keeping the previous snapshot.  On success it
deep-compares (`reflect.DeepEqual`) the new value with the installed
snapshot; only on inequality does it install the pointer and, when the
`EnvoyXdsServer` is wired, update `Env.Mesh` and broadcast a full push.
A change confined to `ConfigSources` is additionally logged, but the
config controller is not rebuilt (the `TODO` at line 424).

`MeshConfigModel S R` splits the mesh snapshot into its `ConfigSources`
list (`S` names one source) and the rest of the fields (`R`); structural
equality of the model is `reflect.DeepEqual` of the snapshot.
-/

/-- A mesh-configuration snapshot: its `ConfigSources` and everything
else. -/
structure MeshConfigModel (S R : Type) where
  configSources : List S
  rest : R
deriving DecidableEq, Repr

/-- The `Server` fields the mesh reload callback can see: the installed
snapshot, the config controller built at init time, and the
`EnvoyXdsServer` (`none` = nil, `some m` = wired with `Env.Mesh = m`). -/
structure MeshServerState (S R CC : Type) where
  mesh : MeshConfigModel S R
  configController : CC
  xdsEnvMesh : Option (MeshConfigModel S R)
deriving Repr

/-- A broadcast to the discovery server (`ConfigUpdate` with
`Full: true`). -/
inductive PushEvent where
  | fullPush
deriving DecidableEq, Repr

/-- The `initMesh` file-watch callback (part_000 lines 413-432).
`readResult` is the outcome of `cmd.ReadMeshConfig` on the changed
file.  Returns the updated server state and the pushes broadcast. -/
def meshReloadCallback {S R CC : Type} [DecidableEq S] [DecidableEq R]
    (s : MeshServerState S R CC) (readResult : Except String (MeshConfigModel S R)) :
    MeshServerState S R CC × List PushEvent :=
  match readResult with
  | .error _ => (s, [])
  | .ok m =>
    if m = s.mesh then (s, [])
    else
      match s.xdsEnvMesh with
      | none => ({ s with mesh := m }, [])
      | some _ => ({ s with mesh := m, xdsEnvMesh := some m }, [PushEvent.fullPush])

/-- State seen by the `initMeshNetworks` reload callback: the installed
networks snapshot and the optional network-lookup consumers. -/
structure NetworksServerState (N : Type) where
  meshNetworks : N
  kubeRegistryNet : Option N
  multiclusterNet : Option N
  xdsEnvNetworks : Option N
deriving Repr

/-- The `initMeshNetworks` file-watch callback (part_000 lines 480-503):
on a read error keep everything; on success compare with the installed
snapshot before host resolution, and only on inequality install the
host-resolved value, rebind the network lookups, and push. -/
def meshNetworksReloadCallback {N : Type} [DecidableEq N] (resolveHosts : N → N)
    (s : NetworksServerState N) (readResult : Except String N) :
    NetworksServerState N × List PushEvent :=
  match readResult with
  | .error _ => (s, [])
  | .ok n =>
    if n = s.meshNetworks then (s, [])
    else
      let r := resolveHosts n
      ({ meshNetworks := r
         kubeRegistryNet := s.kubeRegistryNet.map (fun _ => r)
         multiclusterNet := s.multiclusterNet.map (fun _ => r)
         xdsEnvNetworks := s.xdsEnvNetworks.map (fun _ => r) },
       if s.xdsEnvNetworks.isSome then [PushEvent.fullPush] else [])

/-- C7: on a mesh (or mesh-networks) config-file change, a failed re-read
retains the previous snapshot and pushes nothing; a successful re-read
installs the new snapshot and (with the discovery server wired)
broadcasts a full push exactly when the new value is deep-unequal to the
installed one. -/
theorem claim_C7 {S R CC N : Type} [DecidableEq S] [DecidableEq R] [DecidableEq N]
    (s : MeshServerState S R CC) (m : MeshConfigModel S R)
    (resolveHosts : N → N) (t : NetworksServerState N) (n : N)
    (msg : String) (hxds : s.xdsEnvMesh.isSome) (htxds : t.xdsEnvNetworks.isSome) :
    meshReloadCallback s (.error msg) = (s, []) ∧
    meshNetworksReloadCallback resolveHosts t (.error msg) = (t, []) ∧
    (m ≠ s.mesh → (meshReloadCallback s (.ok m)).1.mesh = m) ∧
    (m = s.mesh → (meshReloadCallback s (.ok m)).1 = s) ∧
    ((meshReloadCallback s (.ok m)).2 = [PushEvent.fullPush] ↔ m ≠ s.mesh) ∧
    (n ≠ t.meshNetworks →
      (meshNetworksReloadCallback resolveHosts t (.ok n)).1.meshNetworks = resolveHosts n) ∧
    (n = t.meshNetworks → (meshNetworksReloadCallback resolveHosts t (.ok n)).1 = t) ∧
    ((meshNetworksReloadCallback resolveHosts t (.ok n)).2 = [PushEvent.fullPush] ↔
      n ≠ t.meshNetworks) := by
  obtain ⟨mx, hmx⟩ := Option.isSome_iff_exists.mp hxds
  refine ⟨rfl, rfl, ?_, ?_, ?_, ?_, ?_, ?_⟩
  · intro hne
    simp [meshReloadCallback, hne, hmx]
  · intro heq
    simp [meshReloadCallback, heq]
  · constructor
    · intro hp
      intro heq
      simp [meshReloadCallback, heq] at hp
    · intro hne
      simp [meshReloadCallback, hne, hmx]
  · intro hne
    simp [meshNetworksReloadCallback, hne]
  · intro heq
    simp [meshNetworksReloadCallback, heq]
  · constructor
    · intro hp heq
      simp [meshNetworksReloadCallback, heq] at hp
    · intro hne
      simp [meshNetworksReloadCallback, hne, htxds]

/-- Witness for C7 at concrete snapshots. -/
theorem claim_C7_witness :
    (meshReloadCallback
      { mesh := ⟨["a"], 0⟩, configController := 1, xdsEnvMesh := some ⟨["a"], 0⟩ }
      (.ok (⟨["b"], 0⟩ : MeshConfigModel String Nat))).2 = [PushEvent.fullPush] ∧
    (meshNetworksReloadCallback (fun x => x + 1)
      { meshNetworks := 0, kubeRegistryNet := none, multiclusterNet := none,
        xdsEnvNetworks := some 0 } (.ok 5)).1.meshNetworks = 6 := by
  constructor
  · exact (@claim_C7 String Nat Nat Nat _ _ _
      { mesh := ⟨["a"], 0⟩, configController := 1, xdsEnvMesh := some ⟨["a"], 0⟩ }
      ⟨["b"], 0⟩ (fun x => x + 1)
      { meshNetworks := 0, kubeRegistryNet := none, multiclusterNet := none,
        xdsEnvNetworks := some 0 } 5 "e" rfl rfl).2.2.2.2.1.mpr (by decide)
  · exact (@claim_C7 String Nat Nat Nat _ _ _
      { mesh := (⟨["a"], 0⟩ : MeshConfigModel String Nat), configController := 1,
        xdsEnvMesh := some ⟨["a"], 0⟩ }
      ⟨["b"], 0⟩ (fun x => x + 1)
      { meshNetworks := 0, kubeRegistryNet := none, multiclusterNet := none,
        xdsEnvNetworks := some 0 } 5 "e" rfl rfl).2.2.2.2.2.1 (by decide)

/-- C10: on a mesh reload whose snapshot differs in `ConfigSources`, the
callback leaves the config controller untouched: it replaces the mesh
pointer (and the discovery server's `Env.Mesh`) and broadcasts one full
push, and nothing else. -/
theorem claim_C10 {S R CC : Type} [DecidableEq S] [DecidableEq R]
    (s : MeshServerState S R CC) (m : MeshConfigModel S R)
    (hsrc : m.configSources ≠ s.mesh.configSources)
    (mx : MeshConfigModel S R) (hmx : s.xdsEnvMesh = some mx) :
    meshReloadCallback s (.ok m) =
      ({ mesh := m, configController := s.configController, xdsEnvMesh := some m },
       [PushEvent.fullPush]) ∧
    (meshReloadCallback s (.ok m)).1.configController = s.configController := by
  have hne : m ≠ s.mesh := fun h => hsrc (by rw [h])
  constructor
  · simp [meshReloadCallback, hne, hmx]
  · simp [meshReloadCallback, hne, hmx]

/-- Witness for C10 at concrete snapshots differing in ConfigSources. -/
theorem claim_C10_witness :
    (meshReloadCallback
      { mesh := (⟨["a"], 0⟩ : MeshConfigModel String Nat), configController := 42,
        xdsEnvMesh := some ⟨["a"], 0⟩ }
      (.ok ⟨["b"], 0⟩)).1.configController = 42 :=
  (claim_C10
    { mesh := ⟨["a"], 0⟩, configController := 42, xdsEnvMesh := some ⟨["a"], 0⟩ }
    ⟨["b"], 0⟩ (by decide) ⟨["a"], 0⟩ rfl).2

end Bootstrap

namespace Bootstrap

/-!
Cache-sync gating of the discovery listeners
(`Server.initDiscoveryService`, part_000 lines 971-1056, and
`Server.waitForCacheSync`, lines 1195-1213).

The sync predicate polled by `cache.WaitForCacheSync` is: the kube
service registry (when one exists) reports `HasSynced` and the config
controller reports `HasSynced`.  `kube` and `config` give each cache's
`HasSynced` value at the k-th poll; `stopFuel` is the number of polls
the stop channel allows before the wait gives up and the start action
returns without serving.
-/

/-- The predicate inside `waitForCacheSync` (lines 1197-1207): false if
a kube registry exists and has not synced, false if the config
controller has not synced, else true. -/
def hasSyncedAll (kube : Option Bool) (config : Bool) : Bool :=
  match kube with
  | some b => b && config
  | none => config

/-- The polling loop of `cache.WaitForCacheSync`: true as soon as the
predicate holds at some poll, false once the stop budget runs out. -/
def waitSyncLoop (synced : Nat → Bool) : Nat → Nat → Bool
  | 0, _ => false
  | fuel + 1, k => if synced k then true else waitSyncLoop synced fuel (k + 1)

/-- `Server.waitForCacheSync` over per-cache sync traces. -/
def waitForCacheSync (stopFuel : Nat) (kube : Option (Nat → Bool))
    (config : Nat → Bool) : Bool :=
  waitSyncLoop (fun k => hasSyncedAll (kube.map (fun f => f k)) (config k)) stopFuel 0

/-- `Serve` calls a start action can make on the bound listeners. -/
inductive ServeEvent where
  | serveHTTP
  | serveGRPC
  | serveTLS
deriving DecidableEq, Repr

/-- The discovery start action (lines 971-1008): wait for cache sync; on
failure return without serving, on success serve the HTTP and gRPC
listeners. -/
def discoveryStartAction (stopFuel : Nat) (kube : Option (Nat → Bool))
    (config : Nat → Bool) : List ServeEvent :=
  if waitForCacheSync stopFuel kube config then
    [ServeEvent.serveHTTP, ServeEvent.serveGRPC]
  else []

/-- The secure start action (lines 1023-1056): wait for cache sync; on
success call `ServeTLS` on the secure listener. -/
def secureStartAction (stopFuel : Nat) (kube : Option (Nat → Bool))
    (config : Nat → Bool) : List ServeEvent :=
  if waitForCacheSync stopFuel kube config then [ServeEvent.serveTLS] else []

theorem waitSyncLoop_true_exists (synced : Nat → Bool) (fuel k : Nat)
    (h : waitSyncLoop synced fuel k = true) : ∃ j, k ≤ j ∧ synced j = true := by
  induction fuel generalizing k with
  | zero => simp [waitSyncLoop] at h
  | succ n ih =>
    by_cases hk : synced k = true
    · exact ⟨k, Nat.le_refl k, hk⟩
    · simp only [waitSyncLoop, hk, Bool.false_eq_true, if_false] at h
      obtain ⟨j, hj1, hj2⟩ := ih (k + 1) h
      exact ⟨j, by omega, hj2⟩

/-- C8: neither the discovery start action nor the secure one serves any
listener before the cache-sync wait succeeds: a Serve (or ServeTLS) call
in the action's trace implies some poll at which every present cache —
the kube service registry if there is one, and the config controller —
reported `HasSynced`; and if the wait never succeeds, nothing is served. -/
theorem claim_C8 (stopFuel : Nat) (kube : Option (Nat → Bool))
    (config : Nat → Bool) :
    (∀ e ∈ discoveryStartAction stopFuel kube config,
      ∃ j, (∀ f, kube = some f → f j = true) ∧ config j = true) ∧
    (ServeEvent.serveTLS ∈ secureStartAction stopFuel kube config →
      ∃ j, (∀ f, kube = some f → f j = true) ∧ config j = true) ∧
    (waitForCacheSync stopFuel kube config = false →
      discoveryStartAction stopFuel kube config = [] ∧
      secureStartAction stopFuel kube config = []) := by
  have key : waitForCacheSync stopFuel kube config = true →
      ∃ j, (∀ f, kube = some f → f j = true) ∧ config j = true := by
    intro h
    obtain ⟨j, _, hj⟩ := waitSyncLoop_true_exists _ stopFuel 0 h
    refine ⟨j, ?_, ?_⟩
    · intro f hf
      subst hf
      simp only [hasSyncedAll, Option.map_some] at hj
      exact (Bool.and_eq_true_iff.mp hj).1
    · cases kube with
      | none => simpa [hasSyncedAll] using hj
      | some f =>
        simp only [hasSyncedAll, Option.map_some] at hj
        exact (Bool.and_eq_true_iff.mp hj).2
  refine ⟨?_, ?_, ?_⟩
  · intro e he
    unfold discoveryStartAction at he
    by_cases hw : waitForCacheSync stopFuel kube config = true
    · exact key hw
    · simp [hw] at he
  · intro he
    unfold secureStartAction at he
    by_cases hw : waitForCacheSync stopFuel kube config = true
    · exact key hw
    · simp [hw] at he
  · intro hw
    constructor <;> simp [discoveryStartAction, secureStartAction, hw]

/-- Witness for C8: caches that sync at the second poll; the discovery
action serves, and the sync poll index is exhibited. -/
theorem claim_C8_witness :
    ∃ j, (∀ f, (some (fun k => decide (1 ≤ k)) : Option (Nat → Bool)) = some f →
        f j = true) ∧ decide (1 ≤ j) = true :=
  (claim_C8 5 (some (fun k => decide (1 ≤ k))) (fun k => decide (1 ≤ k))).1
    ServeEvent.serveHTTP (by decide)

end Bootstrap

namespace Bootstrap

/-!
`NewServer` (part_000 lines 247-303) and the init steps whose error
behaviour C9 cites: `initMesh` (lines 397-456, with `GetMeshConfig`
lines 366-394), `initMCPConfigController` / `initConfigController`
(lines 538-777) and `initServiceControllers` (lines 836-884).

Each init step that only matters through its success or failure is
represented by its `Except String Unit` outcome; `initMesh` and the two
steps with claim-relevant internal structure are modelled from their
code.  `NewServer` chains the steps in source order and prefixes each
error with the step name exactly as the `fmt.Errorf` calls do.
-/

/-- The inputs `initMesh` consults: `args.MeshConfig` (a preloaded
snapshot), the result of `cmd.ReadMeshConfig(args.Mesh.ConfigFile)` when
a file is configured (`none` = no `ConfigFile`), and
`args.Mesh.MixerAddress` (`none` = empty string). -/
structure MeshInitArgs (S R : Type) where
  meshConfigArg : Option (MeshConfigModel S R)
  configFileRead : Option (Except String (MeshConfigModel S R))
  mixerAddress : Option String

/-- Mixer override (lines 444-447): with a `MixerAddress`, the check and
report servers in the snapshot's non-source fields are overwritten
(`setMixer` performs that field update). -/
def applyMixerOverride {S R : Type} (setMixer : String → R → R)
    (addr : Option String) (m : MeshConfigModel S R) : MeshConfigModel S R :=
  match addr with
  | none => m
  | some a => { m with rest := setMixer a m.rest }

/-- `GetMeshConfig` (lines 366-394), by outcome: with no kube client the
default mesh is returned; with one, `kubeLookup` is the combined result
of the config-map fetch and parse, the not-found case already folded to
`.ok default` as the code does. -/
def GetMeshConfig {S R : Type}
    (kubeLookup : Option (Except String (MeshConfigModel S R)))
    (defaultMesh : MeshConfigModel S R) : Except String (MeshConfigModel S R) :=
  match kubeLookup with
  | none => .ok defaultMesh
  | some r => r

/-- `initMesh` (lines 397-456): a preloaded snapshot wins; else a
configured file is read, a read failure being only logged ("failed to
read mesh configuration, using default"); if no snapshot was obtained,
fall back to `GetMeshConfig` — only a failure of that fallback is
returned — and apply the mixer override to the fallback result. -/
def initMesh {S R : Type} (setMixer : String → R → R) (args : MeshInitArgs S R)
    (kubeLookup : Option (Except String (MeshConfigModel S R)))
    (defaultMesh : MeshConfigModel S R) : Except String (MeshConfigModel S R) :=
  match args.meshConfigArg with
  | some m => .ok m
  | none =>
    let fromFile : Option (MeshConfigModel S R) :=
      match args.configFileRead with
      | none => none
      | some (.ok m) => some m
      | some (.error _) => none
    match fromFile with
    | some m => .ok m
    | none =>
      match GetMeshConfig kubeLookup defaultMesh with
      | .error e => .error e
      | .ok m => .ok (applyMixerOverride setMixer args.mixerAddress m)

/-- How `initMCPConfigController` (lines 538-713) handles one entry of
`mesh.ConfigSources`: an `fs://` source with a valid path, a URL that
fails `url.Parse`, an `fs://` URL with an empty path, and a remote
source whose dial succeeds or fails. -/
inductive McpSourceOutcome where
  | fsOk
  | urlParseError (addr : String)
  | fsEmptyPath (addr : String)
  | dialOk
  | dialError (msg : String)
deriving DecidableEq, Repr

/-- The source loop of `initMCPConfigController`: the first invalid URL
or failed dial aborts with its error; valid sources accumulate. -/
def initMCPConfigController : List McpSourceOutcome → Except String Unit
  | [] => .ok ()
  | McpSourceOutcome.fsOk :: rest => initMCPConfigController rest
  | McpSourceOutcome.urlParseError a :: _ => .error ("invalid config URL " ++ a)
  | McpSourceOutcome.fsEmptyPath a :: _ =>
    .error ("invalid fs config URL " ++ a ++ ", contains no file path")
  | McpSourceOutcome.dialOk :: rest => initMCPConfigController rest
  | McpSourceOutcome.dialError m :: _ => .error m

/-- `initConfigController` (lines 716-777): with configured sources, run
the MCP path; otherwise the controller-override / file-directory /
kube-CRD-client branches, collapsed to their outcome `nonMcpSetup`. -/
def initConfigController {S R : Type} (m : MeshConfigModel S R)
    (sourceOutcome : S → McpSourceOutcome) (nonMcpSetup : Except String Unit) :
    Except String Unit :=
  if m.configSources.isEmpty then nonMcpSetup
  else initMCPConfigController (m.configSources.map sourceOutcome)

/-- One requested registry name (`args.Service.Registries`): the names
the switch in `initServiceControllers` recognises, or an unsupported
one. -/
inductive RegistryKind where
  | mock
  | kubernetes
  | consul
  | mcp
  | other (name : String)
deriving DecidableEq, Repr

/-- The registry loop of `initServiceControllers` (lines 839-863): a
repeated name is skipped with a warning; `Kubernetes` and `Consul` run
their sub-init, which can fail; an unrecognised name is an error. -/
def initServiceControllersGo (k8s consul : Except String Unit) :
    List RegistryKind → List RegistryKind → Except String Unit
  | [], _ => .ok ()
  | r :: rest, seen =>
    if r ∈ seen then initServiceControllersGo k8s consul rest seen
    else
      match r with
      | RegistryKind.mock => initServiceControllersGo k8s consul rest (r :: seen)
      | RegistryKind.kubernetes =>
        match k8s with
        | .error e => .error e
        | .ok _ => initServiceControllersGo k8s consul rest (r :: seen)
      | RegistryKind.consul =>
        match consul with
        | .error e => .error e
        | .ok _ => initServiceControllersGo k8s consul rest (r :: seen)
      | RegistryKind.mcp => initServiceControllersGo k8s consul rest (r :: seen)
      | RegistryKind.other n => .error ("service registry " ++ n ++ " is not supported")

/-- `initServiceControllers` (lines 836-884): walk the requested
registries with an empty registered set. -/
def initServiceControllers (k8s consul : Except String Unit)
    (regs : List RegistryKind) : Except String Unit :=
  initServiceControllersGo k8s consul regs []

/-- The per-step inputs and outcomes `NewServer` consumes, in source
order.  Steps the claims do not look inside are their outcomes. -/
structure InitOutcomes (S R : Type) where
  kubeClientR : Except String Unit
  meshArgs : MeshInitArgs S R
  kubeMeshLookup : Option (Except String (MeshConfigModel S R))
  defaultMesh : MeshConfigModel S R
  setMixer : String → R → R
  networksR : Except String Unit
  sourceOutcome : S → McpSourceOutcome
  nonMcpSetupR : Except String Unit
  registries : List RegistryKind
  k8sInitR : Except String Unit
  consulInitR : Except String Unit
  discoveryR : Except String Unit
  monitorR : Except String Unit
  clusterRegistriesR : Except String Unit
  certControllerR : Except String Unit

/-- `NewServer` (lines 247-303): run the init steps in order; the first
failing step's error is returned, prefixed with the step name as in the
`fmt.Errorf` wrappers; on success the server (represented by its
installed mesh) is returned. -/
def NewServer {S R : Type} (o : InitOutcomes S R) :
    Except String (MeshConfigModel S R) :=
  match o.kubeClientR with
  | .error e => .error ("kube client: " ++ e)
  | .ok _ =>
  match initMesh o.setMixer o.meshArgs o.kubeMeshLookup o.defaultMesh with
  | .error e => .error ("mesh: " ++ e)
  | .ok m =>
  match o.networksR with
  | .error e => .error ("mesh networks: " ++ e)
  | .ok _ =>
  match initConfigController m o.sourceOutcome o.nonMcpSetupR with
  | .error e => .error ("config controller: " ++ e)
  | .ok _ =>
  match initServiceControllers o.k8sInitR o.consulInitR o.registries with
  | .error e => .error ("service controllers: " ++ e)
  | .ok _ =>
  match o.discoveryR with
  | .error e => .error ("discovery service: " ++ e)
  | .ok _ =>
  match o.monitorR with
  | .error e => .error ("monitor: " ++ e)
  | .ok _ =>
  match o.clusterRegistriesR with
  | .error e => .error ("cluster registries: " ++ e)
  | .ok _ =>
  match o.certControllerR with
  | .error e => .error ("certificate controller: " ++ e)
  | .ok _ => .ok m

end Bootstrap

namespace Bootstrap

/-- Source entries on which the MCP source loop aborts with an error. -/
def sourceFails : McpSourceOutcome → Bool
  | McpSourceOutcome.fsOk => false
  | McpSourceOutcome.dialOk => false
  | McpSourceOutcome.urlParseError _ => true
  | McpSourceOutcome.fsEmptyPath _ => true
  | McpSourceOutcome.dialError _ => true

theorem initMCP_error_of_fail (outs : List McpSourceOutcome)
    (h : ∃ x ∈ outs, sourceFails x = true) :
    ∃ msg, initMCPConfigController outs = .error msg := by
  induction outs with
  | nil => simp at h
  | cons x rest ih =>
    cases x with
    | fsOk =>
      obtain ⟨y, hy, hfy⟩ := h
      rcases List.mem_cons.mp hy with rfl | hmem
      · simp [sourceFails] at hfy
      · exact ih ⟨y, hmem, hfy⟩
    | dialOk =>
      obtain ⟨y, hy, hfy⟩ := h
      rcases List.mem_cons.mp hy with rfl | hmem
      · simp [sourceFails] at hfy
      · exact ih ⟨y, hmem, hfy⟩
    | urlParseError a => exact ⟨_, rfl⟩
    | fsEmptyPath a => exact ⟨_, rfl⟩
    | dialError m => exact ⟨_, rfl⟩

theorem initServiceControllersGo_error_of_other
    (k8s consul : Except String Unit) (regs : List RegistryKind) :
    ∀ seen, (∀ m, RegistryKind.other m ∉ seen) →
    (∃ n, RegistryKind.other n ∈ regs) →
    ∃ msg, initServiceControllersGo k8s consul regs seen = .error msg := by
  induction regs with
  | nil => intro seen _ h; simp at h
  | cons r rest ih =>
    intro seen hseen ⟨n, hn⟩
    by_cases hr : r ∈ seen
    · have hmem : RegistryKind.other n ∈ rest := by
        rcases List.mem_cons.mp hn with rfl | hmem
        · exact absurd hr (hseen n)
        · exact hmem
      have := ih seen hseen ⟨n, hmem⟩
      simpa [initServiceControllersGo, hr] using this
    · cases r with
      | mock =>
        have hmem : RegistryKind.other n ∈ rest := by
          rcases List.mem_cons.mp hn with h | hmem
          · exact absurd h (by simp)
          · exact hmem
        have := ih (RegistryKind.mock :: seen)
          (by intro m hm; rcases List.mem_cons.mp hm with h | hm2
              · exact absurd h (by simp)
              · exact hseen m hm2) ⟨n, hmem⟩
        simpa [initServiceControllersGo, hr] using this
      | kubernetes =>
        have hmem : RegistryKind.other n ∈ rest := by
          rcases List.mem_cons.mp hn with h | hmem
          · exact absurd h (by simp)
          · exact hmem
        cases hk : k8s with
        | error e => exact ⟨e, by simp [initServiceControllersGo, hr, hk]⟩
        | ok u =>
          have := ih (RegistryKind.kubernetes :: seen)
            (by intro m hm; rcases List.mem_cons.mp hm with h | hm2
                · exact absurd h (by simp)
                · exact hseen m hm2) ⟨n, hmem⟩
          simpa [initServiceControllersGo, hr, hk] using this
      | consul =>
        have hmem : RegistryKind.other n ∈ rest := by
          rcases List.mem_cons.mp hn with h | hmem
          · exact absurd h (by simp)
          · exact hmem
        cases hk : consul with
        | error e => exact ⟨e, by simp [initServiceControllersGo, hr, hk]⟩
        | ok u =>
          have := ih (RegistryKind.consul :: seen)
            (by intro m hm; rcases List.mem_cons.mp hm with h | hm2
                · exact absurd h (by simp)
                · exact hseen m hm2) ⟨n, hmem⟩
          simpa [initServiceControllersGo, hr, hk] using this
      | mcp =>
        have hmem : RegistryKind.other n ∈ rest := by
          rcases List.mem_cons.mp hn with h | hmem
          · exact absurd h (by simp)
          · exact hmem
        have := ih (RegistryKind.mcp :: seen)
          (by intro m hm; rcases List.mem_cons.mp hm with h | hm2
              · exact absurd h (by simp)
              · exact hseen m hm2) ⟨n, hmem⟩
        simpa [initServiceControllersGo, hr] using this
      | other nm =>
        exact ⟨"service registry " ++ nm ++ " is not supported",
          by simp [initServiceControllersGo, hr]⟩

/-- C9 counterexample: with no kube client, an unparseable mesh config
file does not abort `NewServer`; the read failure is only logged
("failed to read mesh configuration, using default") and construction
succeeds with the default mesh, contradicting the claim that an
unparseable mesh file is returned from the constructor. -/
theorem claim_C9_counterexample :
    NewServer
      { kubeClientR := .ok ()
        meshArgs := { meshConfigArg := none
                      configFileRead := some (.error "failed to parse mesh file")
                      mixerAddress := none }
        kubeMeshLookup := none
        defaultMesh := (⟨[], 0⟩ : MeshConfigModel Nat Nat)
        setMixer := fun _ r => r
        networksR := .ok ()
        sourceOutcome := fun _ => McpSourceOutcome.fsOk
        nonMcpSetupR := .ok ()
        registries := []
        k8sInitR := .ok ()
        consulInitR := .ok ()
        discoveryR := .ok ()
        monitorR := .ok ()
        clusterRegistriesR := .ok ()
        certControllerR := .ok () } = .ok ⟨[], 0⟩ := rfl

/-- C9 (amended): init-step failures — a failed cluster client, a failed
mesh fallback lookup, an invalid config-source URL (or failed source
dial), an unknown registry name — are returned from NewServer with the
step-name prefixed message, aborting construction; an unparseable mesh
config file, however, is not an error: the read failure is logged and
the fallback (config-map or default) mesh is installed instead. -/
theorem claim_C9 {S R : Type} (o : InitOutcomes S R) :
    (∀ e, o.kubeClientR = .error e →
      NewServer o = .error ("kube client: " ++ e)) ∧
    (∀ e, o.kubeClientR = .ok () →
      initMesh o.setMixer o.meshArgs o.kubeMeshLookup o.defaultMesh = .error e →
      NewServer o = .error ("mesh: " ++ e)) ∧
    (∀ m, o.kubeClientR = .ok () →
      initMesh o.setMixer o.meshArgs o.kubeMeshLookup o.defaultMesh = .ok m →
      o.networksR = .ok () →
      (∃ s ∈ m.configSources, sourceFails (o.sourceOutcome s) = true) →
      ∃ msg, NewServer o = .error ("config controller: " ++ msg)) ∧
    (∀ m n, o.kubeClientR = .ok () →
      initMesh o.setMixer o.meshArgs o.kubeMeshLookup o.defaultMesh = .ok m →
      o.networksR = .ok () →
      initConfigController m o.sourceOutcome o.nonMcpSetupR = .ok () →
      RegistryKind.other n ∈ o.registries →
      ∃ msg, NewServer o = .error ("service controllers: " ++ msg)) ∧
    (∀ msg, o.meshArgs.meshConfigArg = none →
      o.meshArgs.configFileRead = some (.error msg) →
      o.kubeMeshLookup = none →
      initMesh o.setMixer o.meshArgs o.kubeMeshLookup o.defaultMesh =
        .ok (applyMixerOverride o.setMixer o.meshArgs.mixerAddress o.defaultMesh)) := by
  refine ⟨?_, ?_, ?_, ?_, ?_⟩
  · intro e he
    simp [NewServer, he]
  · intro e hk hm
    simp [NewServer, hk, hm]
  · intro m hk hm hn hfail
    obtain ⟨s, hs, hfs⟩ := hfail
    have hne : ¬ m.configSources.isEmpty := by
      cases hcs : m.configSources with
      | nil => rw [hcs] at hs; simp at hs
      | cons a l => simp [hcs]
    obtain ⟨msg, hmsg⟩ := initMCP_error_of_fail (m.configSources.map o.sourceOutcome)
      ⟨o.sourceOutcome s, List.mem_map_of_mem _ hs, hfs⟩
    refine ⟨msg, ?_⟩
    simp [NewServer, hk, hm, hn, initConfigController, hne, hmsg]
  · intro m n hk hm hn hcfg hreg
    obtain ⟨msg, hmsg⟩ := initServiceControllersGo_error_of_other
      o.k8sInitR o.consulInitR o.registries [] (by simp) ⟨n, hreg⟩
    refine ⟨msg, ?_⟩
    simp [NewServer, hk, hm, hn, hcfg, initServiceControllers, hmsg]
  · intro msg h1 h2 h3
    simp [initMesh, h1, h2, h3, GetMeshConfig]

/-- Witness for C9 (amended) at concrete outcomes: a failed cluster
client aborts with the prefixed error, and an unparseable mesh file
still yields the default mesh. -/
theorem claim_C9_witness :
    NewServer
      { kubeClientR := .error "no cluster"
        meshArgs := { meshConfigArg := none
                      configFileRead := some (.error "bad yaml")
                      mixerAddress := none }
        kubeMeshLookup := none
        defaultMesh := (⟨[], 0⟩ : MeshConfigModel Nat Nat)
        setMixer := fun _ r => r
        networksR := .ok ()
        sourceOutcome := fun _ => McpSourceOutcome.fsOk
        nonMcpSetupR := .ok ()
        registries := []
        k8sInitR := .ok ()
        consulInitR := .ok ()
        discoveryR := .ok ()
        monitorR := .ok ()
        clusterRegistriesR := .ok ()
        certControllerR := .ok () } = .error ("kube client: " ++ "no cluster") ∧
    @initMesh Nat Nat (fun _ r => r)
      { meshConfigArg := none
        configFileRead := some (.error "bad yaml")
        mixerAddress := none } none ⟨[], 0⟩ =
      .ok (applyMixerOverride (fun _ r => r) none ⟨[], 0⟩) := by
  constructor
  · exact (claim_C9 _).1 "no cluster" rfl
  · exact (@claim_C9 Nat Nat
      { kubeClientR := .error "no cluster"
        meshArgs := { meshConfigArg := none
                      configFileRead := some (.error "bad yaml")
                      mixerAddress := none }
        kubeMeshLookup := none
        defaultMesh := ⟨[], 0⟩
        setMixer := fun _ r => r
        networksR := .ok ()
        sourceOutcome := fun _ => McpSourceOutcome.fsOk
        nonMcpSetupR := .ok ()
        registries := []
        k8sInitR := .ok ()
        consulInitR := .ok ()
        discoveryR := .ok ()
        monitorR := .ok ()
        clusterRegistriesR := .ok ()
        certControllerR := .ok () }).2.2.2.2 "bad yaml" rfl rfl rfl

end Bootstrap
